import Mathlib

/-!
Verification development for the FTA transit-safety analysis scripts
(`fta_safety_analysis.py`, `fta_deadly_events_map.py`, `fta_nyc_basemap.py`,
`fta_nyc_time_slider_map.py`).

The scripts form one pipeline: fetch a JSON event dataset, keyword-filter the
agency column to New York agencies, coerce latitude/longitude (and, in the
time-slider script, the incident date) to numeric/temporal values dropping
rows that fail, keep rows with positive fatality counts, and aggregate by
rounded coordinate, event type, or year-month.

Modelling conventions:
  * pandas cells that may be missing are `Option` values; a missing numeric
    cell is `RawField.null` (pandas `NaN`).
  * float64 values are modelled as exact fractions (`Q`, an integer numerator
    and denominator); all parsed values have a positive denominator.
  * text is compared through explicit `List Char` functions so that every
    definition evaluates by kernel reduction.
  * `pd.to_numeric(errors='coerce')` is modelled on the decimal-literal
    fragment (optional sign, digits, optional fractional part); scientific
    notation and the literals `inf`/`nan` are outside the fragment.
    `pd.to_datetime(errors='coerce')` is modelled on ISO `YYYY-MM-DD` inputs
    with real calendar-day validation.
-/

/-! ## Text utilities (kernel-computable replacements for pandas str ops) -/

/-- Upper-cased character content of a string, as `df[col].str.upper()`
produces before a `str.contains` test. -/
def upperData (s : String) : List Char := s.data.map Char.toUpper

/-- Lower-cased character content of a string, as `col.lower()` produces in
the column-name scans of `fta_safety_analysis.py`. -/
def lowerData (s : String) : List Char := s.data.map Char.toLower

/-- Substring test on character lists: `needle` occurs contiguously inside
`hay`.  This is the semantics of `str.contains` with a literal (regex-free)
pattern. -/
def containsData (needle hay : List Char) : Bool :=
  hay.tails.any (fun t => needle.isPrefixOf t)

/-- Lexicographic comparison of character lists, the order in which pandas
returns sorted string values (`Series.mode()` output order, sorted group
keys). -/
def charLe : List Char → List Char → Bool
  | [], _ => true
  | _ :: _, [] => false
  | a :: as, b :: bs =>
      if a < b then true
      else if b < a then false
      else charLe as bs

/-! ## Exact fractions standing in for float64 coordinates -/

/-- Exact rational value `num / den`; every value built by the pipeline has
`0 < den`.  Used in place of float64 for latitude/longitude. -/
structure Q where
  num : Int
  den : Int
deriving DecidableEq

/-- Comparison `a ≤ b` by cross-multiplication (valid for the
positive-denominator values the pipeline produces). -/
def qle (a b : Q) : Bool := decide (a.num * b.den ≤ b.num * a.den)

/-- Thousandths-unit rounding: the integer `round(q * 1000)`, i.e. the value
`df['latitude'].round(3)` computes, scaled by 1000 so that bucket keys live in
`Int`.  Rounding is half-up; the banker's-rounding float64 tie behaviour is
not distinguishable on the data this pipeline handles. -/
def roundMilli (q : Q) : Int := Int.fdiv (2000 * q.num + q.den) (2 * q.den)

/-! ## Field parsing (`pd.to_numeric` / `pd.to_datetime` with coercion) -/

/-- Numeric value of a digit character. -/
def digitVal (c : Char) : Nat := c.toNat - 48

/-- Value of a digit string read in base 10. -/
def digitsToNat (cs : List Char) : Nat := cs.foldl (fun a c => a * 10 + digitVal c) 0

/-- All characters are decimal digits. -/
def allDigits (cs : List Char) : Bool := cs.all (fun c => c.isDigit)

/-- Parse an unsigned decimal literal (`"40"`, `"40.75"`, `".5"`, `"40."`)
into an exact fraction; anything else fails. -/
def parseUnsigned (cs : List Char) : Option Q :=
  match cs.splitOn '.' with
  | [ip] =>
      if !ip.isEmpty && allDigits ip then some ⟨(digitsToNat ip : Int), 1⟩ else none
  | [ip, fp] =>
      if (!ip.isEmpty || !fp.isEmpty) && allDigits ip && allDigits fp then
        some ⟨(digitsToNat ip : Int) * (10 : Int) ^ fp.length + (digitsToNat fp : Int),
              (10 : Int) ^ fp.length⟩
      else none
  | _ => none

/-- Parse a signed decimal literal, the coercion `pd.to_numeric(x,
errors='coerce')` performs on a string cell; `none` is the `NaN` outcome. -/
def parseDecimal (s : String) : Option Q :=
  match s.data with
  | [] => none
  | c :: cs =>
      if c = '-' then (parseUnsigned cs).map (fun q => ⟨-q.num, q.den⟩)
      else if c = '+' then parseUnsigned cs
      else parseUnsigned (c :: cs)

/-- Calendar date. -/
structure Date where
  year : Nat
  month : Nat
  day : Nat
deriving DecidableEq

/-- Length of a month, with the Gregorian leap-year rule, as pandas validates
dates. -/
def daysInMonth (y m : Nat) : Nat :=
  if m = 2 then (if (y % 4 = 0 ∧ ¬ y % 100 = 0) ∨ y % 400 = 0 then 29 else 28)
  else if m = 4 ∨ m = 6 ∨ m = 9 ∨ m = 11 then 30 else 31

/-- Parse an ISO `YYYY-MM-DD` date, the coercion `pd.to_datetime(x,
errors='coerce')` performs; `none` is the `NaT` outcome. -/
def parseDate (s : String) : Option Date :=
  match s.data.splitOn '-' with
  | [ys, ms, ds] =>
      if (!ys.isEmpty && allDigits ys) && (!ms.isEmpty && allDigits ms)
          && (!ds.isEmpty && allDigits ds) then
        let y := digitsToNat ys
        let m := digitsToNat ms
        let d := digitsToNat ds
        if 1 ≤ m ∧ m ≤ 12 ∧ 1 ≤ d ∧ d ≤ daysInMonth y m then some ⟨y, m, d⟩ else none
      else none
  | _ => none

/-! ## Data model -/

/-- Raw numeric-or-text cell as fetched: missing (`NaN`), already numeric, or
a string still to be coerced. -/
inductive RawField where
  | null : RawField
  | num (q : Q) : RawField
  | str (s : String) : RawField
deriving DecidableEq

/-- pandas `notna` on a raw cell. -/
def RawField.notna : RawField → Bool
  | .null => false
  | _ => true

/-- The coercion `pd.to_numeric(x, errors='coerce')`: missing and unparsable
cells become `NaN` (`none`). -/
def toNumeric : RawField → Option Q
  | .null => none
  | .num q => some q
  | .str s => parseDecimal s

/-- One fetched safety-event record (the columns the pipeline reads). -/
structure RawEvent where
  agency : Option String
  latitude : RawField
  longitude : RawField
  incident_date : Option String
  total_fatalities : Int
  total_injuries : Int
  event_type : Option String
  location_type : Option String
deriving DecidableEq

/-- A record after coordinate coercion (output of `prepare_fatal_events` in
`fta_deadly_events_map.py` / `fta_nyc_basemap.py`; the incident date is kept
as the raw optional string, as those scripts do not coerce it). -/
structure NormEvent where
  agency : Option String
  latitude : Q
  longitude : Q
  incident_date : Option String
  total_fatalities : Int
  total_injuries : Int
  event_type : Option String
  location_type : Option String
deriving DecidableEq

/-- A record after coordinate and date coercion (output of
`prepare_fatal_events` in `fta_nyc_time_slider_map.py`, which additionally
requires a parseable incident date). -/
structure TimedEvent where
  agency : Option String
  latitude : Q
  longitude : Q
  incident_date : Date
  total_fatalities : Int
  total_injuries : Int
  event_type : Option String
  location_type : Option String
deriving DecidableEq

/-! ## Agency filter (`filter_new_york_data`, identical in the three map
scripts) -/

/-- The keyword list `ny_keywords` of the three map scripts. -/
def ny_keywords : List String := ["NEW YORK", "NYC", "MTA", "METROPOLITAN TRANSPORTATION"]

/-- One agency string matches when its upper-casing contains some keyword;
this is `str.upper().str.contains('NEW YORK|NYC|MTA|METROPOLITAN
TRANSPORTATION')`, an alternation of literal patterns. -/
def agency_matches (a : String) : Bool :=
  ny_keywords.any (fun kw => containsData kw.data (upperData a))

/-- The agency filter: `df[df['agency'].str.upper().str.contains(...,
na=False)]`.  A missing agency name is a non-match (`na=False`), not an
error. -/
def filter_new_york_data (df : List RawEvent) : List RawEvent :=
  df.filter (fun r =>
    match r.agency with
    | none => false
    | some a => agency_matches a)

/-! ## Event normalizer / fatality selector (`prepare_fatal_events`) -/

/-- Coordinate coercion of one row: both `pd.to_numeric` coercions succeed, or
the row is dropped by the following `notna` filter. -/
def coerceCoords (r : RawEvent) : Option NormEvent :=
  match toNumeric r.latitude, toNumeric r.longitude with
  | some la, some lo =>
      some ⟨r.agency, la, lo, r.incident_date, r.total_fatalities, r.total_injuries,
            r.event_type, r.location_type⟩
  | _, _ => none

/-- Coordinate and date coercion of one row, as the time-slider script
performs (`pd.to_numeric` twice and `pd.to_datetime` once). -/
def coerceCoordsDate (r : RawEvent) : Option TimedEvent :=
  match toNumeric r.latitude, toNumeric r.longitude, r.incident_date.bind parseDate with
  | some la, some lo, some d =>
      some ⟨r.agency, la, lo, d, r.total_fatalities, r.total_injuries,
            r.event_type, r.location_type⟩
  | _, _, _ => none

/-- The approximate NYC bounding box of `fta_nyc_basemap.py` and
`fta_nyc_time_slider_map.py`: latitude 40.4–41.0, longitude -74.3– -73.7. -/
def inNycBounds (la lo : Q) : Bool :=
  qle ⟨404, 10⟩ la && qle la ⟨41, 1⟩ && qle ⟨-743, 10⟩ lo && qle lo ⟨-737, 10⟩

/-- `prepare_fatal_events` of `fta_deadly_events_map.py`: fatality filter,
raw `notna` filter on both coordinates, numeric coercion, and a second
`notna` filter removing rows whose coercion produced `NaN`.  No geographic
bound is applied in this script. -/
def prepare_fatal_events_deadly (df : List RawEvent) : List NormEvent :=
  let fatal := df.filter (fun r => 0 < r.total_fatalities)
  let located := fatal.filter (fun r => r.latitude.notna && r.longitude.notna)
  located.filterMap coerceCoords

/-- `prepare_fatal_events` of `fta_nyc_basemap.py`: as in the deadly-events
script, with the final filter additionally requiring the NYC bounding box. -/
def prepare_fatal_events_basemap (df : List RawEvent) : List NormEvent :=
  let fatal := df.filter (fun r => 0 < r.total_fatalities)
  let located := fatal.filter (fun r => r.latitude.notna && r.longitude.notna)
  (located.filterMap coerceCoords).filter (fun e => inNycBounds e.latitude e.longitude)

/-- `prepare_fatal_events` of `fta_nyc_time_slider_map.py`: additionally
coerces the incident date and drops rows where it fails. -/
def prepare_fatal_events_slider (df : List RawEvent) : List TimedEvent :=
  let fatal := df.filter (fun r => 0 < r.total_fatalities)
  let located := fatal.filter (fun r => r.latitude.notna && r.longitude.notna)
  (located.filterMap coerceCoordsDate).filter (fun e => inNycBounds e.latitude e.longitude)

/-! Quick sanity examples (concrete evaluation of the embedded pipeline). -/

example : parseDecimal ("40.75") = some ⟨4075, 100⟩ := by decide

example : parseDecimal ("abc") = none := by decide

example : parseDecimal ("-73.98") = some ⟨-7398, 100⟩ := by decide

example : parseDate ("2019-03-01") = some ⟨2019, 3, 1⟩ := by decide

example : parseDate ("2019-02-30") = none := by decide

example : agency_matches ("MTA NYC Transit") = true := by decide

example : agency_matches ("LA METRO") = false := by decide

example : roundMilli ⟨407554, 10000⟩ = 40755 := by decide

example : inNycBounds ⟨4075, 100⟩ ⟨-7398, 100⟩ = true := by decide

/-! ## Aggregation by rounded coordinate (`print_deadliest_locations` of
`fta_deadly_events_map.py`) -/

/-- Bucket key: `(df['latitude'].round(3), df['longitude'].round(3))`, held in
thousandths units. -/
def coordKey (e : NormEvent) : Int × Int := (roundMilli e.latitude, roundMilli e.longitude)

/-- The rows of one coordinate group (pandas keeps input order inside a
group). -/
def coordGroup (df : List NormEvent) (k : Int × Int) : List NormEvent :=
  df.filter (fun e => decide (coordKey e = k))

/-- One row of the `location_fatalities` table: summed fatalities, the
non-null count of `incident_date` (the pandas `'count'` aggregation), and the
two mode columns. -/
structure CoordBucket where
  lat_milli : Int
  lon_milli : Int
  total_fatalities : Int
  num_incidents : Nat
  event_type : Option String
  location_type : Option String
deriving DecidableEq

/-- String order used by pandas when it sorts string values. -/
def strle (a b : String) : Prop := charLe a.data b.data = true

instance : DecidableRel strle := fun a b => by unfold strle; infer_instance

/-- pandas `Series.mode()`: the non-null values of maximal multiplicity, in
sorted order. -/
def seriesMode (vals : List String) : List String :=
  let distinct := vals.dedup
  let mx := (distinct.map (fun v => vals.count v)).foldr max 0
  List.insertionSort strle (distinct.filter (fun v => vals.count v == mx))

/-- The aggregation lambda `lambda x: x.mode()[0] if len(x) > 0 else
'Unknown'` applied to one group's column (nulls included, so the group length
test counts nulls).  Result `none` models the `KeyError` raised by indexing
`[0]` into an empty mode series (the group was all-null, `mode()` dropped
every value). -/
def modeLambda (x : List (Option String)) : Option String :=
  if 0 < x.length then
    match seriesMode (x.filterMap id) with
    | [] => none
    | v :: _ => some v
  else some ("Unknown")

/-- Ascending lexicographic order on coordinate keys, the order in which
pandas `groupby(sort=True)` emits groups. -/
def keyLex (a b : Int × Int) : Prop := a.1 < b.1 ∨ (a.1 = b.1 ∧ a.2 ≤ b.2)

instance : DecidableRel keyLex := fun a b => by unfold keyLex; infer_instance

/-- Descending fatality-sum order, `sort_values('total_fatalities',
ascending=False)` (tie order among equal sums is unspecified in pandas; a
stable sort is one admissible refinement). -/
def bucketDesc (b c : CoordBucket) : Prop := c.total_fatalities ≤ b.total_fatalities

instance : DecidableRel bucketDesc := fun a b => by unfold bucketDesc; infer_instance

/-- One aggregated bucket of `print_deadliest_locations`. -/
def mkCoordBucket (df : List NormEvent) (k : Int × Int) : CoordBucket :=
  { lat_milli := k.1, lon_milli := k.2,
    total_fatalities := ((coordGroup df k).map (fun e => e.total_fatalities)).sum,
    num_incidents := (coordGroup df k).countP (fun e => e.incident_date.isSome),
    event_type := modeLambda ((coordGroup df k).map (fun e => e.event_type)),
    location_type := modeLambda ((coordGroup df k).map (fun e => e.location_type)) }

/-- The full `location_fatalities` table: group by rounded coordinates,
aggregate, sort descending by fatality sum. -/
def deadliest_locations (df : List NormEvent) : List CoordBucket :=
  let ks := List.insertionSort keyLex ((df.map coordKey).dedup)
  List.insertionSort bucketDesc (ks.map (mkCoordBucket df))

/-- The printed report: `location_fatalities.head(15)`. -/
def deadliest_report (df : List NormEvent) : List CoordBucket :=
  (deadliest_locations df).take 15

/-! ## Aggregation by event type (`print_summary` of `fta_nyc_basemap.py`) -/

/-- Descending order on event-summary rows by fatality sum. -/
def eventRowDesc (a b : String × Int × Nat) : Prop := b.2.1 ≤ a.2.1

instance : DecidableRel eventRowDesc := fun a b => by unfold eventRowDesc; infer_instance

/-- `df.groupby('event_type').agg({'total_fatalities': 'sum', 'event_type':
'count'}).sort_values('total_fatalities', ascending=False)`.  pandas groupby
drops rows whose key is null, and the `'count'` aggregation counts non-null
cells of the group. -/
def event_summary (df : List NormEvent) : List (String × Int × Nat) :=
  let ks := List.insertionSort strle ((df.filterMap (fun e => e.event_type)).dedup)
  let rows := ks.map (fun k =>
    let g := df.filter (fun e => decide (e.event_type = some k))
    (k, (g.map (fun e => e.total_fatalities)).sum, g.countP (fun e => e.event_type.isSome)))
  List.insertionSort eventRowDesc rows

/-! ## Aggregation by year-month (`print_temporal_summary` of
`fta_nyc_time_slider_map.py`) -/

/-- Chronological order on `(year, month)` periods. -/
def ymLex (a b : Nat × Nat) : Prop := a.1 < b.1 ∨ (a.1 = b.1 ∧ a.2 ≤ b.2)

instance : DecidableRel ymLex := fun a b => by unfold ymLex; infer_instance

/-- Descending order on month-summary rows by fatality sum. -/
def monthRowDesc (a b : (Nat × Nat) × Int × Nat) : Prop := b.2.1 ≤ a.2.1

instance : DecidableRel monthRowDesc := fun a b => by unfold monthRowDesc; infer_instance

/-- Year-month key of a date-coerced row (`incident_date.dt.to_period('M')`). -/
def ymKey (e : TimedEvent) : Nat × Nat := (e.incident_date.year, e.incident_date.month)

/-- `df.groupby('year_month').agg({'total_fatalities': 'sum', 'year_month':
'count'}).sort_values('total_fatalities', ascending=False)`.  Every row of
the time-slider pipeline has a parsed date, so the key column has no nulls
and the `'count'` aggregation is the group size. -/
def month_summary (df : List TimedEvent) : List ((Nat × Nat) × Int × Nat) :=
  let ks := List.insertionSort ymLex ((df.map ymKey).dedup)
  let rows := ks.map (fun k =>
    let g := df.filter (fun e => decide (ymKey e = k))
    (k, (g.map (fun e => e.total_fatalities)).sum, g.length))
  List.insertionSort monthRowDesc rows

/-! ## Column-heuristic filtering (`filter_new_york_data` of
`fta_safety_analysis.py`), which needs a schema-carrying frame model -/

/-- A data frame: named columns plus rows of cells (a short row reads as null
in the missing columns, as a missing cell does). -/
structure Frame where
  cols : List String
  rows : List (List RawField)
deriving DecidableEq

/-- Cell of `row` in column `c` (null when the column is absent). -/
def Frame.cell (df : Frame) (c : String) (row : List RawField) : RawField :=
  (row[df.cols.findIdx (fun c2 => c2 == c)]?).getD RawField.null

/-- Keep the rows satisfying a predicate (`df[mask]`). -/
def Frame.filterRows (df : Frame) (p : List RawField → Bool) : Frame :=
  ⟨df.cols, df.rows.filter p⟩

/-- `df['state'].str.upper() == 'NY'`: true only on a string cell whose
upper-casing is exactly `NY` (a null or numeric cell compares false). -/
def fieldUpperEqNY (f : RawField) : Bool :=
  match f with
  | .str s => upperData s == ("NY").data
  | _ => false

/-- Column-name heuristic: the lower-cased name contains `location`, `city`,
`state` or `agency`. -/
def isLocationCol (c : String) : Bool :=
  containsData ("location").data (lowerData c) || containsData ("city").data (lowerData c) ||
    containsData ("state").data (lowerData c) || containsData ("agency").data (lowerData c)

/-- Keyword set of the fallback branch, `'NEW YORK|NY|NYC|MTA'`. -/
def analysis_keywords : List String := ["NEW YORK", "NY", "NYC", "MTA"]

/-- Fallback keyword match on the stringified cell. -/
def fallback_matches (s : String) : Bool :=
  analysis_keywords.any (fun kw => containsData kw.data (upperData s))

/-- pandas `astype(str)`: null renders as the literal text `nan`; a numeric
cell renders as its decimal text.  The exact digit layout of the numeric
rendering (here `num/den`) is immaterial: it contains only digits, a sign and
a slash, so no NY keyword can match it. -/
def astypeStr : RawField → String
  | .null => "nan"
  | .num q =>
      (if q.num < 0 then "-" else "") ++ Nat.repr q.num.natAbs ++ "/" ++ Nat.repr q.den.natAbs
  | .str s => s

/-- `filter_new_york_data` of `fta_safety_analysis.py`: filter on a `state`
column if present, else on `agency_name`, else on the first column whose name
passes the location heuristic, else return the frame unchanged. -/
def filter_new_york_data_analysis (df : Frame) : Frame :=
  if ("state") ∈ df.cols then
    df.filterRows (fun row => fieldUpperEqNY (df.cell ("state") row))
  else if ("agency_name") ∈ df.cols then
    df.filterRows (fun row =>
      match df.cell ("agency_name") row with
      | .str s => agency_matches s
      | _ => false)
  else
    match df.cols.filter isLocationCol with
    | [] => df
    | c :: _ => df.filterRows (fun row => fallback_matches (astypeStr (df.cell c row)))

/-! ## Run models of the `main` functions (error-path behaviour).

Only the decision-relevant observable effects are recorded: warning/error log
records (info-level progress logging is presentation detail, out of scope per
the spec), whether the manual-filtering guidance message was printed, and
whether a report stage (analysis tables / maps / plots) was reached. -/

/-- Severity of a log record. -/
inductive LogLevel where
  | info
  | warning
  | error
deriving DecidableEq

/-- Observable outcome of one run. -/
structure RunOutput where
  logs : List (LogLevel × String)
  printedGuidance : Bool
  producedReport : Bool
deriving DecidableEq

/-- `main` of `fta_safety_analysis.py`.  `none` models a fetch failure
(`load_fta_data` returned `None` after logging an error). -/
def mainSafety (fetched : Option Frame) : RunOutput :=
  match fetched with
  | none =>
      { logs := [(.error, "Failed to load data"), (.error, "Cannot proceed without data")],
        printedGuidance := false, producedReport := false }
  | some df =>
      let ny := filter_new_york_data_analysis df
      if ny.rows.length = 0 then
        { logs := [(.warning, "No New York data found. Showing guidance for manual filtering.")],
          printedGuidance := true, producedReport := false }
      else
        { logs := [], printedGuidance := false, producedReport := true }

/-- `main` of `fta_deadly_events_map.py`. -/
def mainDeadly (fetched : Option (List RawEvent)) : RunOutput :=
  match fetched with
  | none =>
      { logs := [(.error, "Failed to load data"), (.error, "Cannot proceed without data")],
        printedGuidance := false, producedReport := false }
  | some df =>
      let fatal := prepare_fatal_events_deadly (filter_new_york_data df)
      if fatal.length = 0 then
        { logs := [(.error, "No fatal incidents with coordinates found for New York")],
          printedGuidance := false, producedReport := false }
      else
        { logs := [], printedGuidance := false, producedReport := true }

/-- `main` of `fta_nyc_basemap.py`. -/
def mainBasemap (fetched : Option (List RawEvent)) : RunOutput :=
  match fetched with
  | none =>
      { logs := [(.error, "Failed to load data"), (.error, "Cannot proceed without data")],
        printedGuidance := false, producedReport := false }
  | some df =>
      let fatal := prepare_fatal_events_basemap (filter_new_york_data df)
      if fatal.length = 0 then
        { logs := [(.error, "No fatal incidents with coordinates found for NYC")],
          printedGuidance := false, producedReport := false }
      else
        { logs := [], printedGuidance := false, producedReport := true }

/-! ## Spec-side definitions.

These follow the words of the specification / claims rather than the code;
they exist to be compared with the code-side definitions above. -/

/-- The spec's Event Normalizer for `fta_deadly_events_map.py`, run before
any fatality selection: coordinate validity filtering and coercion only. -/
def specNormalizeDeadly (df : List RawEvent) : List NormEvent :=
  (df.filter (fun r => r.latitude.notna && r.longitude.notna)).filterMap coerceCoords

/-- The spec's Event Normalizer for `fta_nyc_basemap.py`: coordinate
coercion plus the NYC bounding box, before any fatality selection. -/
def specNormalizeBasemap (df : List RawEvent) : List NormEvent :=
  ((df.filter (fun r => r.latitude.notna && r.longitude.notna)).filterMap coerceCoords).filter
    (fun e => inNycBounds e.latitude e.longitude)

/-- The spec's Fatality Selector: keep rows with positive fatality count. -/
def fatality_selector (es : List NormEvent) : List NormEvent :=
  es.filter (fun e => 0 < e.total_fatalities)

/-- Modal value with ties broken by the first-encountered value in group
iteration order, as claim C6 words the tie-break (and `Unknown` on an
all-null group, as the spec's edge case words it). -/
def firstMode (x : List (Option String)) : Option String :=
  let vals := x.filterMap id
  let mx := (vals.dedup.map (fun v => vals.count v)).foldr max 0
  match vals.filter (fun v => vals.count v == mx) with
  | [] => some ("Unknown")
  | v :: _ => some v

/-- One bucket as claim C6 describes it: incident count = group size,
first-encountered tie-break for the two mode columns. -/
def claimCoordBucket (df : List NormEvent) (k : Int × Int) : CoordBucket :=
  { lat_milli := k.1, lon_milli := k.2,
    total_fatalities := ((coordGroup df k).map (fun e => e.total_fatalities)).sum,
    num_incidents := (coordGroup df k).length,
    event_type := firstMode ((coordGroup df k).map (fun e => e.event_type)),
    location_type := firstMode ((coordGroup df k).map (fun e => e.location_type)) }

/-- The by-rounded-coordinate aggregate as claim C6 describes it. -/
def claimDeadliestLocations (df : List NormEvent) : List CoordBucket :=
  let ks := List.insertionSort keyLex ((df.map coordKey).dedup)
  List.insertionSort bucketDesc (ks.map (claimCoordBucket df))

/-! ## General lemmas: substring characterization -/

/-- The executable substring test agrees with the appearing-contiguously
characterization. -/
theorem containsData_iff (needle hay : List Char) :
    containsData needle hay = true ↔ ∃ p q, hay = p ++ needle ++ q := by
  unfold containsData
  rw [List.any_eq_true]
  constructor
  · rintro ⟨t, ht, hpre⟩
    rw [List.mem_tails] at ht
    obtain ⟨p, hp⟩ := ht
    rw [List.isPrefixOf_iff_prefix] at hpre
    obtain ⟨q, hq⟩ := hpre
    exact ⟨p, q, by rw [← hp, ← hq, List.append_assoc]⟩
  · rintro ⟨p, q, rfl⟩
    refine ⟨needle ++ q, ?_, ?_⟩
    · rw [List.mem_tails]
      exact ⟨p, (List.append_assoc p needle q).symm⟩
    · rw [List.isPrefixOf_iff_prefix]
      exact ⟨q, rfl⟩

/-! ## General lemmas: the lexicographic string order -/

theorem charLe_refl (as : List Char) : charLe as as = true := by
  induction as with
  | nil => rfl
  | cons a as ih => simp [charLe, lt_irrefl, ih]

theorem charLe_total (as bs : List Char) : charLe as bs = true ∨ charLe bs as = true := by
  induction as generalizing bs with
  | nil => exact Or.inl rfl
  | cons a as ih =>
    cases bs with
    | nil => exact Or.inr rfl
    | cons b bs =>
      rcases lt_trichotomy a b with h | h | h
      · exact Or.inl (by simp [charLe, h])
      · subst h
        rcases ih bs with h2 | h2
        · exact Or.inl (by simp [charLe, lt_irrefl, h2])
        · exact Or.inr (by simp [charLe, lt_irrefl, h2])
      · exact Or.inr (by simp [charLe, h])

theorem charLe_trans (as bs cs : List Char) (h1 : charLe as bs = true)
    (h2 : charLe bs cs = true) : charLe as cs = true := by
  induction as generalizing bs cs with
  | nil => rfl
  | cons a as ih =>
    cases bs with
    | nil => simp [charLe] at h1
    | cons b bs =>
      cases cs with
      | nil => simp [charLe] at h2
      | cons c cs =>
        by_cases hab : a < b
        · by_cases hbc : b < c
          · simp [charLe, lt_trans hab hbc]
          · by_cases hcb : c < b
            · simp [charLe, hbc, hcb] at h2
            · have : b = c := le_antisymm (not_lt.mp hcb) (not_lt.mp hbc)
              subst this
              simp [charLe, hab]
        · by_cases hba : b < a
          · simp [charLe, hab, hba] at h1
          · have : a = b := le_antisymm (not_lt.mp hba) (not_lt.mp hab)
            subst this
            simp only [charLe, lt_irrefl, if_false] at h1
            by_cases hac : a < c
            · simp [charLe, hac]
            · by_cases hca : c < a
              · simp [charLe, hac, hca] at h2
              · have : a = c := le_antisymm (not_lt.mp hca) (not_lt.mp hac)
                subst this
                simp only [charLe, lt_irrefl, if_false] at h2 ⊢
                exact ih bs cs h1 h2

instance : IsTotal String strle := ⟨fun a b => charLe_total a.data b.data⟩

instance : IsTrans String strle := ⟨fun a b c => charLe_trans a.data b.data c.data⟩

instance : IsTotal CoordBucket bucketDesc :=
  ⟨fun a b => le_total b.total_fatalities a.total_fatalities⟩

instance : IsTrans CoordBucket bucketDesc := ⟨fun _ _ _ hab hbc => le_trans hbc hab⟩

/-! ## General lemmas: maxima of count lists, pandas mode -/

theorem le_foldr_max (l : List Nat) (a : Nat) (h : a ∈ l) : a ≤ l.foldr max 0 := by
  induction l with
  | nil => cases h
  | cons x l ih =>
    rcases List.mem_cons.mp h with rfl | h2
    · exact le_max_left _ _
    · exact le_trans (ih h2) (le_max_right _ _)

theorem foldr_max_mem (l : List Nat) (h : l ≠ []) : l.foldr max 0 ∈ l := by
  induction l with
  | nil => exact absurd rfl h
  | cons x l ih =>
    cases l with
    | nil => simp
    | cons y l2 =>
      rcases max_choice x ((y :: l2).foldr max 0) with h1 | h1
      · simp only [List.foldr_cons] at h1 ⊢
        rw [h1]
        exact List.mem_cons_self _ _
      · have hm := ih (by simp)
        simp only [List.foldr_cons] at h1 hm ⊢
        rw [h1]
        exact List.mem_cons_of_mem _ hm

/-- pandas `Series.mode()` on a nonempty value multiset returns a nonempty
sorted series whose first entry is a value of maximal multiplicity that is
lexicographically least among the maximizers. -/
theorem seriesMode_head_spec (vals : List String) (hne : vals ≠ []) :
    ∃ v rest, seriesMode vals = v :: rest ∧ v ∈ vals ∧
      (∀ w ∈ vals, vals.count w ≤ vals.count v) ∧
      (∀ w ∈ vals, vals.count w = vals.count v → strle v w) := by
  have hd : vals.dedup ≠ [] := by
    intro h
    exact hne ((List.dedup_eq_nil vals).mp h)
  have hcounts : (vals.dedup.map (fun v => vals.count v)) ≠ [] := by
    simpa using hd
  obtain ⟨v0, hv0d, hv0c⟩ :=
    List.mem_map.mp (foldr_max_mem _ hcounts)
  have hv0f : v0 ∈ vals.dedup.filter
      (fun v => vals.count v == (vals.dedup.map (fun v => vals.count v)).foldr max 0) := by
    rw [List.mem_filter]
    exact ⟨hv0d, by simp [hv0c]⟩
  have hperm := List.perm_insertionSort strle
    (vals.dedup.filter
      (fun v => vals.count v == (vals.dedup.map (fun v => vals.count v)).foldr max 0))
  have hne2 : seriesMode vals ≠ [] :=
    List.ne_nil_of_mem ((hperm.mem_iff).mpr hv0f)
  obtain ⟨v, rest, heq⟩ := List.exists_cons_of_ne_nil hne2
  have hvmem : v ∈ seriesMode vals := by rw [heq]; exact List.mem_cons_self _ _
  have hvf : v ∈ vals.dedup.filter
      (fun v => vals.count v == (vals.dedup.map (fun v => vals.count v)).foldr max 0) :=
    hperm.subset hvmem
  rw [List.mem_filter] at hvf
  obtain ⟨hvd, hvc⟩ := hvf
  have hvcount : vals.count v = (vals.dedup.map (fun v => vals.count v)).foldr max 0 := by
    simpa using hvc
  refine ⟨v, rest, heq, List.mem_dedup.mp hvd, ?_, ?_⟩
  · intro w hw
    rw [hvcount]
    exact le_foldr_max _ _ (List.mem_map_of_mem _ (List.mem_dedup.mpr hw))
  · intro w hw hwc
    have hwf : w ∈ vals.dedup.filter
        (fun v => vals.count v == (vals.dedup.map (fun v => vals.count v)).foldr max 0) := by
      rw [List.mem_filter]
      refine ⟨List.mem_dedup.mpr hw, ?_⟩
      simp [hwc, hvcount]
    have hsorted : List.Sorted strle (seriesMode vals) :=
      List.sorted_insertionSort strle _
    have hwmem : w ∈ seriesMode vals := by
      unfold seriesMode
      exact (hperm.mem_iff).mpr hwf
    rw [heq] at hwmem hsorted
    rcases List.mem_cons.mp hwmem with rfl | hwrest
    · exact charLe_refl _
    · exact (List.sorted_cons.mp hsorted).1 w hwrest

/-- Behaviour of the aggregation lambda on a nonempty group: `none` (the
modelled `KeyError`) exactly when every value is null, and otherwise the
lexicographically least maximal-multiplicity non-null value.  The
`'Unknown'` branch is unreachable on nonempty groups. -/
theorem modeLambda_spec (x : List (Option String)) (hx : x ≠ []) :
    (x.filterMap id = [] → modeLambda x = none) ∧
    (x.filterMap id ≠ [] →
      ∃ v, modeLambda x = some v ∧ v ∈ x.filterMap id ∧
        (∀ w ∈ x.filterMap id, (x.filterMap id).count w ≤ (x.filterMap id).count v) ∧
        (∀ w ∈ x.filterMap id, (x.filterMap id).count w = (x.filterMap id).count v → strle v w)) := by
  have hlen : 0 < x.length := List.length_pos.mpr hx
  constructor
  · intro h
    simp only [modeLambda, if_pos hlen, h]
    rfl
  · intro h
    obtain ⟨v, rest, heq, hmem, hmax, hties⟩ := seriesMode_head_spec _ h
    refine ⟨v, ?_, hmem, hmax, hties⟩
    simp only [modeLambda, if_pos hlen, heq]

/-! ## General lemmas: grouped sums (pandas groupby conservation).

`fiberSums key f ks xs` is the total, over the group keys `ks`, of the
`f`-sums of the rows of `xs` carrying that key; pandas `groupby` drops rows
whose key is null, which the `Option`-valued `key` captures. -/

def fiberSums {α κ : Type} [DecidableEq κ] (key : α → Option κ) (f : α → Int)
    (ks : List κ) (xs : List α) : Int :=
  (ks.map (fun k => ((xs.filter (fun x => decide (key x = some k))).map f).sum)).sum

theorem fiberSums_cons_key {α κ : Type} [DecidableEq κ] (key : α → Option κ) (f : α → Int)
    (k : κ) (ks : List κ) (xs : List α) :
    fiberSums key f (k :: ks) xs =
      ((xs.filter (fun x => decide (key x = some k))).map f).sum + fiberSums key f ks xs := by
  simp [fiberSums]

theorem fiberSums_nil {α κ : Type} [DecidableEq κ] (key : α → Option κ) (f : α → Int)
    (ks : List κ) : fiberSums key f ks [] = 0 := by
  induction ks with
  | nil => rfl
  | cons k ks ih =>
    rw [fiberSums_cons_key, ih]
    simp

theorem fiberSums_cons_skip {α κ : Type} [DecidableEq κ] (key : α → Option κ) (f : α → Int)
    (ks : List κ) (x : α) (xs : List α) (h : ∀ k ∈ ks, ¬ key x = some k) :
    fiberSums key f ks (x :: xs) = fiberSums key f ks xs := by
  induction ks with
  | nil => rfl
  | cons k ks ih =>
    have hk : (decide (key x = some k)) = false :=
      decide_eq_false (h k (List.mem_cons_self k ks))
    rw [fiberSums_cons_key, fiberSums_cons_key, List.filter_cons, hk]
    simp only [Bool.false_eq_true, if_false]
    rw [ih (fun k2 hk2 => h k2 (List.mem_cons_of_mem _ hk2))]

theorem fiberSums_cons_mem {α κ : Type} [DecidableEq κ] (key : α → Option κ) (f : α → Int)
    (ks : List κ) (x : α) (xs : List α) (k0 : κ) (hnd : ks.Nodup) (hk0 : key x = some k0)
    (hmem : k0 ∈ ks) :
    fiberSums key f ks (x :: xs) = f x + fiberSums key f ks xs := by
  induction ks with
  | nil => cases hmem
  | cons k ks ih =>
    rw [fiberSums_cons_key, fiberSums_cons_key]
    rcases List.mem_cons.mp hmem with rfl | hmem2
    · have hd : (decide (key x = some k0)) = true := by rw [hk0]; simp
      have hnotin : k0 ∉ ks := (List.nodup_cons.mp hnd).1
      have hskip : fiberSums key f ks (x :: xs) = fiberSums key f ks xs := by
        refine fiberSums_cons_skip key f ks x xs (fun k2 hk2 => ?_)
        rw [hk0]
        intro hc
        exact hnotin ((Option.some_inj.mp hc) ▸ hk2)
      rw [List.filter_cons, hd]
      simp only [if_true]
      rw [List.map_cons, List.sum_cons, hskip]
      ring
    · have hne : k ≠ k0 := fun hc => (List.nodup_cons.mp hnd).1 (hc ▸ hmem2)
      have hd : (decide (key x = some k)) = false := by
        rw [hk0]
        simpa using Ne.symm hne
      rw [List.filter_cons, hd]
      simp only [Bool.false_eq_true, if_false]
      rw [ih (List.nodup_cons.mp hnd).2 hmem2]
      ring

/-- Fiber-sum decomposition: over a duplicate-free key list covering every
non-null key of `xs`, the grouped sums add up to the sum over the rows whose
key is non-null (rows with a null key are dropped by `groupby`). -/
theorem fiberSums_eq {α κ : Type} [DecidableEq κ] (key : α → Option κ) (f : α → Int)
    (ks : List κ) (xs : List α) (hnd : ks.Nodup)
    (hcov : ∀ x ∈ xs, ∀ k, key x = some k → k ∈ ks) :
    fiberSums key f ks xs = ((xs.filter (fun x => (key x).isSome)).map f).sum := by
  induction xs with
  | nil => rw [fiberSums_nil]; rfl
  | cons x xs ih =>
    have ih2 := ih (fun y hy => hcov y (List.mem_cons_of_mem _ hy))
    rcases hx : key x with _ | k0
    · rw [fiberSums_cons_skip key f ks x xs
        (fun k _ => by rw [hx]; exact fun hc => Option.noConfusion hc)]
      rw [List.filter_cons]
      simp only [hx, Option.isSome_none, Bool.false_eq_true, if_false]
      exact ih2
    · rw [fiberSums_cons_mem key f ks x xs k0 hnd hx (hcov x (List.mem_cons_self _ _) k0 hx)]
      rw [List.filter_cons]
      simp only [hx, Option.isSome_some, if_true]
      rw [List.map_cons, List.sum_cons, ih2]

theorem fiberSums_perm {α κ : Type} [DecidableEq κ] (key : α → Option κ) (f : α → Int)
    {ks1 ks2 : List κ} (h : ks1.Perm ks2) (xs : List α) :
    fiberSums key f ks1 xs = fiberSums key f ks2 xs :=
  (h.map _).sum_eq

/-- Filtering on a total key equals filtering on its `some`-lifted form. -/
theorem filter_key_some {α κ : Type} [DecidableEq κ] (key : α → κ) (k : κ) (xs : List α) :
    xs.filter (fun x => decide (key x = k)) =
      xs.filter (fun x => decide (some (key x) = some k)) :=
  List.filter_congr (fun x _ => by simp)

/-! ## Conservation of fatality sums through each aggregator -/

/-- The by-rounded-coordinate aggregation conserves the fatality total: its
keys are never null. -/
theorem deadliest_locations_sum (df : List NormEvent) :
    ((deadliest_locations df).map (fun b => b.total_fatalities)).sum =
      (df.map (fun e => e.total_fatalities)).sum := by
  have h1 : ((deadliest_locations df).map (fun b => b.total_fatalities)).sum
      = (((List.insertionSort keyLex ((df.map coordKey).dedup)).map (mkCoordBucket df)).map
          (fun b => b.total_fatalities)).sum :=
    ((List.perm_insertionSort bucketDesc
      ((List.insertionSort keyLex ((df.map coordKey).dedup)).map (mkCoordBucket df))).map
        _).sum_eq
  rw [h1, List.map_map]
  have h2 : ((List.insertionSort keyLex ((df.map coordKey).dedup)).map
      ((fun b => b.total_fatalities) ∘ mkCoordBucket df))
      = (List.insertionSort keyLex ((df.map coordKey).dedup)).map
          (fun k => ((df.filter (fun x => decide (some (coordKey x) = some k))).map
            (fun e => e.total_fatalities)).sum) := by
    apply List.map_congr_left
    intro k _
    show ((coordGroup df k).map (fun e => e.total_fatalities)).sum = _
    unfold coordGroup
    rw [filter_key_some]
  rw [h2]
  show fiberSums (fun e => some (coordKey e)) (fun e => e.total_fatalities)
      (List.insertionSort keyLex ((df.map coordKey).dedup)) df = _
  rw [fiberSums_perm _ _ (List.perm_insertionSort _ _) df]
  have h4 := fiberSums_eq (fun e => some (coordKey e)) (fun e => e.total_fatalities)
    ((df.map coordKey).dedup) df (List.nodup_dedup _)
    (fun x hx k hk => by
      rw [Option.some_inj] at hk
      exact hk ▸ List.mem_dedup.mpr (List.mem_map_of_mem _ hx))
  rw [h4]
  simp

/-- The by-event-type aggregation conserves the fatality total when every
input row has a non-null event type (pandas drops null-keyed rows). -/
theorem event_summary_sum (df : List NormEvent)
    (h : ∀ e ∈ df, (e.event_type).isSome = true) :
    ((event_summary df).map (fun r => r.2.1)).sum =
      (df.map (fun e => e.total_fatalities)).sum := by
  have h1 : ((event_summary df).map (fun r => r.2.1)).sum
      = (((List.insertionSort strle ((df.filterMap (fun e => e.event_type)).dedup)).map
          (fun k =>
            (k, ((df.filter (fun e => decide (e.event_type = some k))).map
                  (fun e => e.total_fatalities)).sum,
              (df.filter (fun e => decide (e.event_type = some k))).countP
                (fun e => e.event_type.isSome)))).map
          (fun r => r.2.1)).sum :=
    ((List.perm_insertionSort eventRowDesc _).map _).sum_eq
  rw [h1, List.map_map]
  show fiberSums (fun e => e.event_type) (fun e => e.total_fatalities)
      (List.insertionSort strle ((df.filterMap (fun e => e.event_type)).dedup)) df = _
  rw [fiberSums_perm _ _ (List.perm_insertionSort _ _) df]
  have h4 := fiberSums_eq (fun e => e.event_type) (fun e => e.total_fatalities)
    ((df.filterMap (fun e => e.event_type)).dedup) df (List.nodup_dedup _)
    (fun x hx k hk => List.mem_dedup.mpr (List.mem_filterMap.mpr ⟨x, hx, hk⟩))
  rw [h4]
  rw [List.filter_eq_self.mpr h]

/-- The by-year-month aggregation over date-coerced rows conserves the
fatality total: the time-slider pipeline guarantees non-null dates. -/
theorem month_summary_sum (df : List TimedEvent) :
    ((month_summary df).map (fun r => r.2.1)).sum =
      (df.map (fun e => e.total_fatalities)).sum := by
  have h1 : ((month_summary df).map (fun r => r.2.1)).sum
      = (((List.insertionSort ymLex ((df.map ymKey).dedup)).map
          (fun k =>
            (k, ((df.filter (fun e => decide (ymKey e = k))).map
                  (fun e => e.total_fatalities)).sum,
              (df.filter (fun e => decide (ymKey e = k))).length))).map
          (fun r => r.2.1)).sum :=
    ((List.perm_insertionSort monthRowDesc _).map _).sum_eq
  rw [h1, List.map_map]
  have h2 : ((List.insertionSort ymLex ((df.map ymKey).dedup)).map
      ((fun (r : (Nat × Nat) × Int × Nat) => r.2.1) ∘ (fun k =>
        (k, ((df.filter (fun e => decide (ymKey e = k))).map (fun e => e.total_fatalities)).sum,
          (df.filter (fun e => decide (ymKey e = k))).length))))
      = (List.insertionSort ymLex ((df.map ymKey).dedup)).map
          (fun k => ((df.filter (fun x => decide (some (ymKey x) = some k))).map
            (fun e => e.total_fatalities)).sum) := by
    apply List.map_congr_left
    intro k _
    show ((df.filter (fun e => decide (ymKey e = k))).map (fun e => e.total_fatalities)).sum = _
    rw [filter_key_some]
  rw [h2]
  show fiberSums (fun e => some (ymKey e)) (fun e => e.total_fatalities)
      (List.insertionSort ymLex ((df.map ymKey).dedup)) df = _
  rw [fiberSums_perm _ _ (List.perm_insertionSort _ _) df]
  have h4 := fiberSums_eq (fun e => some (ymKey e)) (fun e => e.total_fatalities)
    ((df.map ymKey).dedup) df (List.nodup_dedup _)
    (fun x hx k hk => by
      rw [Option.some_inj] at hk
      exact hk ▸ List.mem_dedup.mpr (List.mem_map_of_mem _ hx))
  rw [h4]
  simp

/-! ## Reordering lemmas (fatality filter versus coercion) -/

/-- Coordinate coercion, when it succeeds, copies the fatality count. -/
theorem coerceCoords_fatalities (r : RawEvent) (e : NormEvent) (h : coerceCoords r = some e) :
    e.total_fatalities = r.total_fatalities := by
  unfold coerceCoords at h
  rcases h1 : toNumeric r.latitude with _ | la <;> rw [h1] at h <;>
    rcases h2 : toNumeric r.longitude with _ | lo <;> rw [h2] at h <;>
    simp only [] at h
  · cases h
  · cases h
  · cases h
  · injection h with h
    subst h
    rfl

/-- A boolean filter commutes with `filterMap` when the partial map carries
the predicate across. -/
theorem filterMap_filter_comm {α β : Type} (f : α → Option β) (p : α → Bool) (q : β → Bool)
    (h : ∀ x y, f x = some y → p x = q y) (xs : List α) :
    (xs.filter p).filterMap f = (xs.filterMap f).filter q := by
  induction xs with
  | nil => rfl
  | cons x xs ih =>
    rcases hfx : f x with _ | y
    · by_cases hp : p x = true
      · rw [List.filter_cons, hp]
        simp only [if_true]
        rw [List.filterMap_cons, hfx, List.filterMap_cons, hfx, ih]
      · rw [List.filter_cons]
        simp only [hp, Bool.false_eq_true, if_false]
        rw [List.filterMap_cons, hfx, ih]
    · have hq := h x y hfx
      by_cases hp : p x = true
      · rw [List.filter_cons, hp]
        simp only [if_true]
        rw [List.filterMap_cons, hfx, List.filterMap_cons, hfx, List.filter_cons, ← hq, hp]
        simp only [if_true]
        rw [ih]
      · rw [List.filter_cons]
        simp only [hp, Bool.false_eq_true, if_false]
        rw [List.filterMap_cons, hfx, List.filter_cons, ← hq]
        simp only [hp, Bool.false_eq_true, if_false]
        rw [ih]

/-! ## Row-dropping helpers for the normalizer -/

/-- Coordinate coercion fails whenever either coordinate fails to coerce. -/
theorem coerceCoords_none (r : RawEvent)
    (h : toNumeric r.latitude = none ∨ toNumeric r.longitude = none) :
    coerceCoords r = none := by
  rcases h1 : toNumeric r.latitude with _ | la <;> rcases h2 : toNumeric r.longitude with _ | lo
  · unfold coerceCoords; rw [h1, h2]
  · unfold coerceCoords; rw [h1, h2]
  · unfold coerceCoords; rw [h1, h2]
  · rcases h with h | h
    · rw [h] at h1; cases h1
    · rw [h] at h2; cases h2

/-- Coordinate-and-date coercion fails whenever any of the three fields
fails to coerce. -/
theorem coerceCoordsDate_none (r : RawEvent)
    (h : toNumeric r.latitude = none ∨ toNumeric r.longitude = none ∨
      r.incident_date.bind parseDate = none) :
    coerceCoordsDate r = none := by
  rcases h1 : toNumeric r.latitude with _ | la <;>
    rcases h2 : toNumeric r.longitude with _ | lo <;>
    rcases h3 : r.incident_date.bind parseDate with _ | d
  · unfold coerceCoordsDate; rw [h1, h2, h3]
  · unfold coerceCoordsDate; rw [h1, h2, h3]
  · unfold coerceCoordsDate; rw [h1, h2, h3]
  · unfold coerceCoordsDate; rw [h1, h2, h3]
  · unfold coerceCoordsDate; rw [h1, h2, h3]
  · unfold coerceCoordsDate; rw [h1, h2, h3]
  · unfold coerceCoordsDate; rw [h1, h2, h3]
  · rcases h with h | h | h
    · rw [h] at h1; cases h1
    · rw [h] at h2; cases h2
    · rw [h] at h3; cases h3

/-- Appending a row whose coercion fails does not change the filtered,
coerced output. -/
theorem locatedFilterMap_cons {β : Type} (f : RawEvent → Option β) (r : RawEvent)
    (df : List RawEvent) (h : f r = none) :
    (((r :: df).filter (fun s => 0 < s.total_fatalities)).filter
        (fun s => s.latitude.notna && s.longitude.notna)).filterMap f =
      ((df.filter (fun s => 0 < s.total_fatalities)).filter
        (fun s => s.latitude.notna && s.longitude.notna)).filterMap f := by
  rw [List.filter_cons]
  by_cases h1 : (decide (0 < r.total_fatalities)) = true
  · rw [if_pos h1, List.filter_cons]
    by_cases h2 : (r.latitude.notna && r.longitude.notna) = true
    · rw [if_pos h2, List.filterMap_cons_none h]
    · rw [if_neg h2]
  · rw [if_neg h1]

theorem prepare_deadly_cons_of_none (r : RawEvent) (df : List RawEvent)
    (h : coerceCoords r = none) :
    prepare_fatal_events_deadly (r :: df) = prepare_fatal_events_deadly df :=
  locatedFilterMap_cons coerceCoords r df h

theorem prepare_basemap_cons_of_none (r : RawEvent) (df : List RawEvent)
    (h : coerceCoords r = none) :
    prepare_fatal_events_basemap (r :: df) = prepare_fatal_events_basemap df := by
  show (prepare_fatal_events_deadly (r :: df)).filter
      (fun e => inNycBounds e.latitude e.longitude)
    = (prepare_fatal_events_deadly df).filter (fun e => inNycBounds e.latitude e.longitude)
  rw [prepare_deadly_cons_of_none r df h]

theorem prepare_slider_cons_of_none (r : RawEvent) (df : List RawEvent)
    (h : coerceCoordsDate r = none) :
    prepare_fatal_events_slider (r :: df) = prepare_fatal_events_slider df := by
  show ((((r :: df).filter (fun s => 0 < s.total_fatalities)).filter
      (fun s => s.latitude.notna && s.longitude.notna)).filterMap coerceCoordsDate).filter
        (fun e => inNycBounds e.latitude e.longitude)
    = (((df.filter (fun s => 0 < s.total_fatalities)).filter
        (fun s => s.latitude.notna && s.longitude.notna)).filterMap coerceCoordsDate).filter
          (fun e => inNycBounds e.latitude e.longitude)
  rw [locatedFilterMap_cons coerceCoordsDate r df h]

/-! ## Claim C7 -/

/-- Claim C7: a row whose latitude, longitude, or (where a date is required)
incident-date field fails to coerce is dropped silently by the normalizer,
regardless of the row's other fields; the surrounding rows are processed
unchanged and no error is raised (the model functions are total). -/
theorem c7_coercion_drop (r : RawEvent) (df : List RawEvent) :
    (toNumeric r.latitude = none ∨ toNumeric r.longitude = none →
      prepare_fatal_events_deadly (r :: df) = prepare_fatal_events_deadly df ∧
      prepare_fatal_events_basemap (r :: df) = prepare_fatal_events_basemap df ∧
      prepare_fatal_events_slider (r :: df) = prepare_fatal_events_slider df) ∧
    (r.incident_date.bind parseDate = none →
      prepare_fatal_events_slider (r :: df) = prepare_fatal_events_slider df) := by
  constructor
  · intro h
    exact ⟨prepare_deadly_cons_of_none r df (coerceCoords_none r h),
      prepare_basemap_cons_of_none r df (coerceCoords_none r h),
      prepare_slider_cons_of_none r df
        (coerceCoordsDate_none r (h.elim Or.inl (fun x => Or.inr (Or.inl x))))⟩
  · intro h
    exact prepare_slider_cons_of_none r df (coerceCoordsDate_none r (Or.inr (Or.inr h)))

/-- A row with latitude `"abc"`, every other field valid. -/
def c7_bad_row : RawEvent :=
  ⟨some ("MTA New York City Transit"), RawField.str ("abc"), RawField.num ⟨-74, 1⟩,
    some ("2019-03-01"), 4, 2, some ("Suicide"), some ("Right-of-Way")⟩

/-- Witness for claim C7 at the spec's own example (`lat:"abc"`). -/
theorem c7_witness :
    prepare_fatal_events_deadly [c7_bad_row] = [] ∧
      prepare_fatal_events_slider [c7_bad_row] = [] := by
  obtain ⟨hd, _, hs⟩ := (c7_coercion_drop c7_bad_row []).1 (Or.inl (by decide))
  exact ⟨hd, hs⟩

/-! ## Claim C5 -/

/-- Claim C5: the agency filter returns exactly the subsequence, in input
order, of rows whose non-null agency name upper-cases to a string containing
one of the four NY keywords as a substring; rows with a null agency name are
excluded (the filter is a total function, so no error is raised). -/
theorem c5_agency_filter (xs : List RawEvent) :
    (filter_new_york_data xs).Sublist xs ∧
    ∀ r, r ∈ filter_new_york_data xs ↔
      (r ∈ xs ∧ ∃ a, r.agency = some a ∧ ∃ kw ∈ ny_keywords,
        ∃ p q, upperData a = p ++ kw.data ++ q) := by
  constructor
  · exact List.filter_sublist xs
  · intro r
    unfold filter_new_york_data
    rw [List.mem_filter]
    constructor
    · rintro ⟨hmem, hmatch⟩
      refine ⟨hmem, ?_⟩
      rcases hag : r.agency with _ | a
      · simp only [hag] at hmatch
        exact Bool.noConfusion hmatch
      · simp only [hag] at hmatch
        unfold agency_matches at hmatch
        rw [List.any_eq_true] at hmatch
        obtain ⟨kw, hkw, hc⟩ := hmatch
        obtain ⟨p, q, hpq⟩ := (containsData_iff _ _).mp hc
        exact ⟨a, rfl, kw, hkw, p, q, hpq⟩
    · rintro ⟨hmem, a, hag, kw, hkw, p, q, hpq⟩
      refine ⟨hmem, ?_⟩
      simp only [hag]
      unfold agency_matches
      rw [List.any_eq_true]
      exact ⟨kw, hkw, (containsData_iff _ _).mpr ⟨p, q, hpq⟩⟩

/-- A matching row and a null-agency row. -/
def c5_row : RawEvent :=
  ⟨some ("MTA NYC TRANSIT"), RawField.null, RawField.null, none, 0, 0, none, none⟩

def c5_null_row : RawEvent :=
  ⟨none, RawField.null, RawField.null, none, 5, 0, none, none⟩

/-- Witness for claim C5: the keyword row passes, the null-agency row is
excluded. -/
theorem c5_witness :
    c5_row ∈ filter_new_york_data [c5_row, c5_null_row] ∧
      c5_null_row ∉ filter_new_york_data [c5_row, c5_null_row] := by
  have h := c5_agency_filter [c5_row, c5_null_row]
  constructor
  · exact (h.2 c5_row).mpr ⟨by decide, "MTA NYC TRANSIT", rfl, "MTA", by decide,
      [], [' ', 'N', 'Y', 'C', ' ', 'T', 'R', 'A', 'N', 'S', 'I', 'T'], by decide⟩
  · intro hc
    rcases ((h.2 c5_null_row).mp hc).2 with ⟨a, hag, _⟩
    simp [c5_null_row] at hag

/-! ## Claim C9 -/

/-- Claim C9: filtering on positive fatalities before coordinate coercion and
bounds filtering (the code's order) produces the same surviving rows, in the
same order, as normalizing first and selecting fatalities second (the spec's
pipeline order), in both the deadly-events and basemap scripts. -/
theorem c9_filter_order (df : List RawEvent) :
    fatality_selector (specNormalizeDeadly df) = prepare_fatal_events_deadly df ∧
    fatality_selector (specNormalizeBasemap df) = prepare_fatal_events_basemap df := by
  have hcompat : ∀ (x : RawEvent) (y : NormEvent), coerceCoords x = some y →
      (decide (0 < x.total_fatalities)) = (decide (0 < y.total_fatalities)) := by
    intro x y hxy
    rw [coerceCoords_fatalities x y hxy]
  have h1 : fatality_selector (specNormalizeDeadly df) = prepare_fatal_events_deadly df := by
    show ((df.filter (fun r => r.latitude.notna && r.longitude.notna)).filterMap
        coerceCoords).filter (fun e => 0 < e.total_fatalities)
      = ((df.filter (fun r => 0 < r.total_fatalities)).filter
          (fun r => r.latitude.notna && r.longitude.notna)).filterMap coerceCoords
    rw [List.filter_comm]
    rw [filterMap_filter_comm coerceCoords _ _ hcompat]
  refine ⟨h1, ?_⟩
  show fatality_selector ((specNormalizeDeadly df).filter
    (fun e => inNycBounds e.latitude e.longitude)) = _
  unfold fatality_selector
  rw [List.filter_comm]
  show (fatality_selector (specNormalizeDeadly df)).filter
    (fun e => inNycBounds e.latitude e.longitude) = _
  rw [h1]
  rfl

/-- Witness for claim C9 at a concrete two-row input. -/
theorem c9_witness :
    fatality_selector (specNormalizeBasemap [c7_bad_row, c5_null_row]) =
      prepare_fatal_events_basemap [c7_bad_row, c5_null_row] :=
  (c9_filter_order [c7_bad_row, c5_null_row]).2

/-! ## Claim C10 -/

/-- Claim C10: when the frame has no `state` column, no `agency_name` column,
and no column whose lower-cased name contains `location`, `city`, `state` or
`agency`, the analysis script's filter returns the frame unchanged. -/
theorem c10_no_location_column (df : Frame)
    (h1 : ("state") ∉ df.cols) (h2 : ("agency_name") ∉ df.cols)
    (h3 : ∀ c ∈ df.cols, isLocationCol c = false) :
    filter_new_york_data_analysis df = df := by
  unfold filter_new_york_data_analysis
  rw [if_neg h1, if_neg h2]
  have hf : df.cols.filter isLocationCol = [] :=
    List.filter_eq_nil_iff.mpr (fun c hc => by simp [h3 c hc])
  rw [hf]

/-- Witness for claim C10 on a frame with one irrelevant column. -/
theorem c10_witness :
    filter_new_york_data_analysis ⟨["notes"], [[RawField.null], [RawField.str ("NYC")]]⟩ =
      ⟨["notes"], [[RawField.null], [RawField.str ("NYC")]]⟩ :=
  c10_no_location_column _ (by decide) (by decide) (by decide)

/-! ## Claim C2 -/

/-- A fatal row whose event type is null: pandas `groupby('event_type')`
silently drops it, so the bucket sums lose its fatality. -/
def c2_null_type_row : NormEvent :=
  ⟨some ("MTA New York City Transit"), ⟨405, 1000⟩, ⟨-74, 1⟩, some ("2020-01-01"), 1, 0,
    none, none⟩

/-- Counterexample to claim C2 as stated: on a one-row input whose event type
is null, the by-event-type aggregate produces no bucket at all, so the
per-bucket fatality total is 0 while the input total is 1. -/
theorem c2_counterexample :
    ¬ (((event_summary [c2_null_type_row]).map (fun r => r.2.1)).sum =
        ([c2_null_type_row].map (fun e => e.total_fatalities)).sum) := by
  decide

/-- Claim C2 as amended: fatality sums are conserved by the by-rounded-
coordinate aggregator unconditionally, by the by-event-type aggregator
whenever every input row has a non-null event type (pandas groupby drops
null-keyed rows), and by the by-year-month aggregator unconditionally (its
input rows always carry a parsed date). -/
theorem c2_sum_conservation :
    (∀ df : List NormEvent,
      ((deadliest_locations df).map (fun b => b.total_fatalities)).sum =
        (df.map (fun e => e.total_fatalities)).sum) ∧
    (∀ df : List NormEvent, (∀ e ∈ df, (e.event_type).isSome = true) →
      ((event_summary df).map (fun r => r.2.1)).sum =
        (df.map (fun e => e.total_fatalities)).sum) ∧
    (∀ df : List TimedEvent,
      ((month_summary df).map (fun r => r.2.1)).sum =
        (df.map (fun e => e.total_fatalities)).sum) :=
  ⟨deadliest_locations_sum, event_summary_sum, month_summary_sum⟩

/-- A fatal row with a non-null event type. -/
def c2_typed_row : NormEvent :=
  ⟨some ("MTA New York City Transit"), ⟨405, 1000⟩, ⟨-74, 1⟩, some ("2020-01-01"), 2, 1,
    some ("Suicide"), none⟩

/-- Witness for claim C2 at concrete inputs. -/
theorem c2_witness :
    ((event_summary [c2_typed_row, c2_typed_row]).map (fun r => r.2.1)).sum =
      ([c2_typed_row, c2_typed_row].map (fun e => e.total_fatalities)).sum :=
  c2_sum_conservation.2.1 [c2_typed_row, c2_typed_row] (by decide)

/-! ## Claim C3 -/

/-- A fatal row in a coordinate bucket whose event-type and location-type
columns are entirely null. -/
def c3_all_null_row : NormEvent :=
  ⟨some ("MTA New York City Transit"), ⟨405, 10⟩, ⟨-74, 1⟩, some ("2020-01-01"), 3, 1,
    none, none⟩

/-- Claim C3 is what the code intends but not what it does: on a bucket whose
event-type column is all null, `x.mode()` drops every value and returns an
empty series, and `x.mode()[0]` raises `KeyError` (modelled as `none`); the
guard `len(x) > 0` tests the group size, which is always positive, so the
`'Unknown'` fallback is unreachable.  Evaluating the aggregator at such a
bucket yields the failure marker, not the label `Unknown`. -/
theorem c3_all_null_mode_raises :
    ((deadliest_locations [c3_all_null_row]).map (fun b => b.event_type) = [none]) ∧
    modeLambda [none] = none ∧
    ¬ ((deadliest_locations [c3_all_null_row]).map (fun b => b.event_type) =
        [some ("Unknown")]) := by
  decide

/-! ## Claim C1 -/

/-- NYC latitude bounds imply the global latitude range (the cross-multiplied
inequalities force a nonnegative denominator, after which the range widens
monotonically). -/
theorem nyc_lat_global (la : Q) (h1 : qle ⟨404, 10⟩ la = true) (h2 : qle la ⟨41, 1⟩ = true) :
    qle ⟨-90, 1⟩ la = true ∧ qle la ⟨90, 1⟩ = true := by
  unfold qle at h1 h2 ⊢
  rw [decide_eq_true_eq] at h1 h2
  rw [decide_eq_true_eq, decide_eq_true_eq]
  dsimp only at h1 h2 ⊢
  constructor <;> omega

/-- NYC longitude bounds imply the global longitude range. -/
theorem nyc_lon_global (lo : Q) (h1 : qle ⟨-743, 10⟩ lo = true)
    (h2 : qle lo ⟨-737, 10⟩ = true) :
    qle ⟨-180, 1⟩ lo = true ∧ qle lo ⟨180, 1⟩ = true := by
  unfold qle at h1 h2 ⊢
  rw [decide_eq_true_eq] at h1 h2
  rw [decide_eq_true_eq, decide_eq_true_eq]
  dsimp only at h1 h2 ⊢
  constructor <;> omega

/-- Splitting the bounding-box test into its four comparisons. -/
theorem inNycBounds_eq_true (la lo : Q) (h : inNycBounds la lo = true) :
    qle ⟨404, 10⟩ la = true ∧ qle la ⟨41, 1⟩ = true ∧
      qle ⟨-743, 10⟩ lo = true ∧ qle lo ⟨-737, 10⟩ = true := by
  unfold inNycBounds at h
  rw [Bool.and_eq_true, Bool.and_eq_true, Bool.and_eq_true] at h
  exact ⟨h.1.1.1, h.1.1.2, h.1.2, h.2⟩

/-- A row with an out-of-range but numerically valid latitude of 200. -/
def c1_bad_row : RawEvent :=
  ⟨some ("MTA New York City Transit"), RawField.num ⟨200, 1⟩, RawField.num ⟨0, 1⟩,
    none, 1, 0, none, none⟩

/-- Counterexample to claim C1 as stated: `prepare_fatal_events` of
`fta_deadly_events_map.py` checks only numeric validity, never a range, so a
row with latitude 200 survives it. -/
theorem c1_counterexample :
    ¬ (∀ e ∈ prepare_fatal_events_deadly [c1_bad_row],
        qle ⟨-90, 1⟩ e.latitude = true ∧ qle e.latitude ⟨90, 1⟩ = true) := by
  decide

/-- Claim C1 as amended: in the two scripts that specify the NYC bounding
box, every surviving row's latitude lies in [40.4, 41.0] and longitude in
[-74.3, -73.7], and hence in the global ranges [-90, 90] and [-180, 180];
the deadly-events script's normalizer enforces no range at all. -/
theorem c1_bounds (df : List RawEvent) :
    (∀ e ∈ prepare_fatal_events_basemap df,
      (qle ⟨404, 10⟩ e.latitude = true ∧ qle e.latitude ⟨41, 1⟩ = true ∧
        qle ⟨-743, 10⟩ e.longitude = true ∧ qle e.longitude ⟨-737, 10⟩ = true) ∧
      (qle ⟨-90, 1⟩ e.latitude = true ∧ qle e.latitude ⟨90, 1⟩ = true ∧
        qle ⟨-180, 1⟩ e.longitude = true ∧ qle e.longitude ⟨180, 1⟩ = true)) ∧
    (∀ e ∈ prepare_fatal_events_slider df,
      (qle ⟨404, 10⟩ e.latitude = true ∧ qle e.latitude ⟨41, 1⟩ = true ∧
        qle ⟨-743, 10⟩ e.longitude = true ∧ qle e.longitude ⟨-737, 10⟩ = true) ∧
      (qle ⟨-90, 1⟩ e.latitude = true ∧ qle e.latitude ⟨90, 1⟩ = true ∧
        qle ⟨-180, 1⟩ e.longitude = true ∧ qle e.longitude ⟨180, 1⟩ = true)) := by
  constructor
  · intro e he
    have hmem : e ∈ (prepare_fatal_events_deadly df).filter
        (fun e => inNycBounds e.latitude e.longitude) := he
    have hb := inNycBounds_eq_true _ _ (List.mem_filter.mp hmem).2
    obtain ⟨hb1, hb2, hb3, hb4⟩ := hb
    have hg1 := nyc_lat_global _ hb1 hb2
    have hg2 := nyc_lon_global _ hb3 hb4
    exact ⟨⟨hb1, hb2, hb3, hb4⟩, hg1.1, hg1.2, hg2.1, hg2.2⟩
  · intro e he
    have hmem : e ∈ ((((df.filter (fun s => 0 < s.total_fatalities)).filter
        (fun s => s.latitude.notna && s.longitude.notna)).filterMap coerceCoordsDate).filter
          (fun e => inNycBounds e.latitude e.longitude)) := he
    have hb := inNycBounds_eq_true _ _ (List.mem_filter.mp hmem).2
    obtain ⟨hb1, hb2, hb3, hb4⟩ := hb
    have hg1 := nyc_lat_global _ hb1 hb2
    have hg2 := nyc_lon_global _ hb3 hb4
    exact ⟨⟨hb1, hb2, hb3, hb4⟩, hg1.1, hg1.2, hg2.1, hg2.2⟩

/-- A fully valid NYC row. -/
def c1_good_row : RawEvent :=
  ⟨some ("MTA New York City Transit"), RawField.str ("40.75"), RawField.str ("-73.98"),
    some ("2019-03-01"), 2, 0, some ("Suicide"), none⟩

/-- Witness for claim C1: the survivor of the basemap normalizer on a
concrete row satisfies the NYC and global latitude bounds. -/
theorem c1_witness :
    qle ⟨404, 10⟩ (⟨4075, 100⟩ : Q) = true ∧ qle ⟨-90, 1⟩ (⟨4075, 100⟩ : Q) = true := by
  have h := (c1_bounds [c1_good_row]).1
    ⟨some ("MTA New York City Transit"), ⟨4075, 100⟩, ⟨-7398, 100⟩, some ("2019-03-01"),
      2, 0, some ("Suicide"), none⟩ (by decide)
  exact ⟨h.1.1, h.2.1⟩

/-! ## Claim C4 -/

/-- The spec's two-row example input; the example does not list an event-type
field, so the rows are parameterized over it. -/
def c4_input (e1 e2 : Option String) : List RawEvent :=
  [⟨some ("MTA NYC TRANSIT"), RawField.str ("40.75"), RawField.str ("-73.98"),
      some ("2019-03-01"), 2, 0, e1, none⟩,
   ⟨some ("LA METRO"), RawField.str ("34.0"), RawField.str ("-118.2"),
      some ("2019-04-01"), 1, 0, e2, none⟩]

/-- The normalized first row, the pipeline's sole survivor. -/
def c4_survivor (e1 : Option String) : NormEvent :=
  ⟨some ("MTA NYC TRANSIT"), ⟨4075, 100⟩, ⟨-7398, 100⟩, some ("2019-03-01"), 2, 0, e1, none⟩

/-- Counterexample to claim C4 as stated: with the example's rows taken
verbatim (no event-type field, i.e. a null event type), the pipeline keeps
exactly the first row, but the by-event-type aggregate drops the null-keyed
row and its fatality total is 0, not 2. -/
theorem c4_counterexample :
    prepare_fatal_events_basemap (filter_new_york_data (c4_input none none)) =
      [c4_survivor none] ∧
    ¬ (((event_summary (prepare_fatal_events_basemap
          (filter_new_york_data (c4_input none none)))).map (fun r => r.2.1)).sum = 2) := by
  decide

/-- Claim C4 as amended: for any event-type values on the two rows, the NYC
pipeline keeps exactly the first row; and whenever the first row's event type
is non-null, the by-event-type aggregate fatality total equals 2. -/
theorem c4_pipeline (e1 e2 : Option String) :
    prepare_fatal_events_basemap (filter_new_york_data (c4_input e1 e2)) =
      [c4_survivor e1] ∧
    (∀ et, e1 = some et →
      ((event_summary (prepare_fatal_events_basemap
          (filter_new_york_data (c4_input e1 e2)))).map (fun r => r.2.1)).sum = 2) := by
  have hpipe : prepare_fatal_events_basemap (filter_new_york_data (c4_input e1 e2)) =
      [c4_survivor e1] := rfl
  refine ⟨hpipe, ?_⟩
  intro et het
  rw [hpipe, het]
  rw [event_summary_sum]
  · rfl
  · intro e he
    rw [List.mem_singleton] at he
    subst he
    rfl

/-- Witness for claim C4 with a concrete non-null event type. -/
theorem c4_witness :
    prepare_fatal_events_basemap (filter_new_york_data (c4_input (some ("Suicide")) none)) =
      [c4_survivor (some ("Suicide"))] ∧
    ((event_summary (prepare_fatal_events_basemap
        (filter_new_york_data (c4_input (some ("Suicide")) none)))).map
      (fun r => r.2.1)).sum = 2 := by
  have h := c4_pipeline (some ("Suicide")) none
  exact ⟨h.1, h.2 "Suicide" rfl⟩

/-! ## Claim C8 -/

/-- Counterexample to claim C8 as stated: an empty-result condition in
`fta_deadly_events_map.py` (a successful fetch of zero records leaves no
fatal incidents) logs no warning and prints no guidance message; the script
logs an error instead. -/
theorem c8_counterexample :
    (prepare_fatal_events_deadly (filter_new_york_data []) = [] ∧
      (mainDeadly (some [])).producedReport = false) ∧
    ¬ ((mainDeadly (some [])).logs.any (fun l => decide (l.1 = LogLevel.warning)) = true ∧
        (mainDeadly (some [])).printedGuidance = true) := by
  decide

/-- Claim C8 as amended: a fetch failure logs an error and produces neither
guidance nor report in all three scripts; an empty agency-filter result in
`fta_safety_analysis.py` logs a warning, prints the guidance message, and
produces no report; an empty fatal-event set in the two map scripts logs an
error (not a warning), prints no guidance, and produces no report. -/
theorem c8_error_paths :
    ((mainSafety none).logs.any (fun l => decide (l.1 = LogLevel.error)) = true ∧
      (mainSafety none).printedGuidance = false ∧ (mainSafety none).producedReport = false) ∧
    ((mainDeadly none).logs.any (fun l => decide (l.1 = LogLevel.error)) = true ∧
      (mainDeadly none).printedGuidance = false ∧ (mainDeadly none).producedReport = false) ∧
    ((mainBasemap none).logs.any (fun l => decide (l.1 = LogLevel.error)) = true ∧
      (mainBasemap none).printedGuidance = false ∧
      (mainBasemap none).producedReport = false) ∧
    (∀ fr : Frame, (filter_new_york_data_analysis fr).rows.length = 0 →
      (mainSafety (some fr)).logs.any (fun l => decide (l.1 = LogLevel.warning)) = true ∧
        (mainSafety (some fr)).printedGuidance = true ∧
        (mainSafety (some fr)).producedReport = false) ∧
    (∀ df : List RawEvent,
      (prepare_fatal_events_deadly (filter_new_york_data df)).length = 0 →
      (mainDeadly (some df)).logs.any (fun l => decide (l.1 = LogLevel.error)) = true ∧
        (mainDeadly (some df)).printedGuidance = false ∧
        (mainDeadly (some df)).producedReport = false) ∧
    (∀ df : List RawEvent,
      (prepare_fatal_events_basemap (filter_new_york_data df)).length = 0 →
      (mainBasemap (some df)).logs.any (fun l => decide (l.1 = LogLevel.error)) = true ∧
        (mainBasemap (some df)).printedGuidance = false ∧
        (mainBasemap (some df)).producedReport = false) := by
  refine ⟨by decide, by decide, by decide, ?_, ?_, ?_⟩
  · intro fr h
    simp only [mainSafety]
    rw [if_pos h]
    exact ⟨rfl, rfl, rfl⟩
  · intro df h
    simp only [mainDeadly]
    rw [if_pos h]
    exact ⟨rfl, rfl, rfl⟩
  · intro df h
    simp only [mainBasemap]
    rw [if_pos h]
    exact ⟨rfl, rfl, rfl⟩

/-- Witness for claim C8 at concrete empty-result runs. -/
theorem c8_witness :
    (mainSafety (some ⟨["agency_name"], []⟩)).printedGuidance = true ∧
    (mainDeadly (some [])).producedReport = false := by
  have h := c8_error_paths
  exact ⟨(h.2.2.2.1 ⟨["agency_name"], []⟩ (by decide)).2.1,
    (h.2.2.2.2.1 [] (by decide)).2.2⟩

/-! ## Claim C6 -/

/-- Two rows in the same rounded-coordinate bucket with tied single-occurrence
event types `B` (first encountered) and `A`. -/
def c6_row_b : NormEvent :=
  ⟨none, ⟨405, 10⟩, ⟨-74, 1⟩, some ("2020-01-01"), 1, 0, some ("B"), some ("L")⟩

def c6_row_a : NormEvent :=
  ⟨none, ⟨405, 10⟩, ⟨-74, 1⟩, some ("2020-02-01"), 1, 0, some ("A"), some ("L")⟩

/-- Counterexample to claim C6 as stated: on a tie, `Series.mode()` returns
its candidates in sorted order and `[0]` picks the lexicographically least
(`A`), not the first-encountered value in group iteration order (`B`), so
the aggregate differs from the claim's description. -/
theorem c6_counterexample :
    ¬ (deadliest_locations [c6_row_b, c6_row_a] =
        claimDeadliestLocations [c6_row_b, c6_row_a]) := by
  decide

/-- Claim C6 as amended: the by-rounded-coordinate aggregator produces one
bucket per distinct rounded-coordinate key; each bucket's fatality field is
the fatality sum of its rows and its incident field counts the rows with a
non-null incident date (not all rows); the representative event type and
location type, when the bucket has any non-null value in that column, are
maximal-multiplicity values that are lexicographically least among the
maximizers (an all-null column yields the modelled `KeyError` instead, see
claim C3); the buckets are sorted descending by fatality sum and the printed
report is the first 15 of them. -/
theorem c6_deadliest_spec (df : List NormEvent) :
    ((deadliest_locations df).map (fun b => (b.lat_milli, b.lon_milli))).Perm
        ((df.map coordKey).dedup) ∧
    (∀ b ∈ deadliest_locations df,
      b.total_fatalities =
          ((df.filter (fun e => decide (coordKey e = (b.lat_milli, b.lon_milli)))).map
            (fun e => e.total_fatalities)).sum ∧
      b.num_incidents =
          ((df.filter (fun e => decide (coordKey e = (b.lat_milli, b.lon_milli)))).filter
            (fun e => e.incident_date.isSome)).length ∧
      ((((df.filter (fun e => decide (coordKey e = (b.lat_milli, b.lon_milli)))).map
          (fun e => e.event_type)).filterMap id = [] → b.event_type = none) ∧
        (((df.filter (fun e => decide (coordKey e = (b.lat_milli, b.lon_milli)))).map
            (fun e => e.event_type)).filterMap id ≠ [] →
          ∃ v, b.event_type = some v ∧
            v ∈ ((df.filter (fun e => decide (coordKey e = (b.lat_milli, b.lon_milli)))).map
              (fun e => e.event_type)).filterMap id ∧
            (∀ w ∈ ((df.filter (fun e =>
                decide (coordKey e = (b.lat_milli, b.lon_milli)))).map
                  (fun e => e.event_type)).filterMap id,
              (((df.filter (fun e => decide (coordKey e = (b.lat_milli, b.lon_milli)))).map
                (fun e => e.event_type)).filterMap id).count w ≤
              (((df.filter (fun e => decide (coordKey e = (b.lat_milli, b.lon_milli)))).map
                (fun e => e.event_type)).filterMap id).count v) ∧
            (∀ w ∈ ((df.filter (fun e =>
                decide (coordKey e = (b.lat_milli, b.lon_milli)))).map
                  (fun e => e.event_type)).filterMap id,
              (((df.filter (fun e => decide (coordKey e = (b.lat_milli, b.lon_milli)))).map
                (fun e => e.event_type)).filterMap id).count w =
              (((df.filter (fun e => decide (coordKey e = (b.lat_milli, b.lon_milli)))).map
                (fun e => e.event_type)).filterMap id).count v → strle v w))) ∧
      ((((df.filter (fun e => decide (coordKey e = (b.lat_milli, b.lon_milli)))).map
          (fun e => e.location_type)).filterMap id = [] → b.location_type = none) ∧
        (((df.filter (fun e => decide (coordKey e = (b.lat_milli, b.lon_milli)))).map
            (fun e => e.location_type)).filterMap id ≠ [] →
          ∃ v, b.location_type = some v ∧
            v ∈ ((df.filter (fun e => decide (coordKey e = (b.lat_milli, b.lon_milli)))).map
              (fun e => e.location_type)).filterMap id ∧
            (∀ w ∈ ((df.filter (fun e =>
                decide (coordKey e = (b.lat_milli, b.lon_milli)))).map
                  (fun e => e.location_type)).filterMap id,
              (((df.filter (fun e => decide (coordKey e = (b.lat_milli, b.lon_milli)))).map
                (fun e => e.location_type)).filterMap id).count w ≤
              (((df.filter (fun e => decide (coordKey e = (b.lat_milli, b.lon_milli)))).map
                (fun e => e.location_type)).filterMap id).count v) ∧
            (∀ w ∈ ((df.filter (fun e =>
                decide (coordKey e = (b.lat_milli, b.lon_milli)))).map
                  (fun e => e.location_type)).filterMap id,
              (((df.filter (fun e => decide (coordKey e = (b.lat_milli, b.lon_milli)))).map
                (fun e => e.location_type)).filterMap id).count w =
              (((df.filter (fun e => decide (coordKey e = (b.lat_milli, b.lon_milli)))).map
                (fun e => e.location_type)).filterMap id).count v → strle v w)))) ∧
    List.Sorted bucketDesc (deadliest_locations df) ∧
    deadliest_report df = (deadliest_locations df).take 15 ∧
    (deadliest_report df).length ≤ 15 := by
  have hL : (deadliest_locations df).Perm
      ((List.insertionSort keyLex ((df.map coordKey).dedup)).map (mkCoordBucket df)) :=
    List.perm_insertionSort bucketDesc _
  refine ⟨?_, ?_, ?_, rfl, ?_⟩
  · have h1 : ((deadliest_locations df).map (fun b => (b.lat_milli, b.lon_milli))).Perm
        (((List.insertionSort keyLex ((df.map coordKey).dedup)).map (mkCoordBucket df)).map
          (fun b => (b.lat_milli, b.lon_milli))) :=
      hL.map _
    rw [List.map_map] at h1
    have h2 : ((List.insertionSort keyLex ((df.map coordKey).dedup)).map
        ((fun (b : CoordBucket) => (b.lat_milli, b.lon_milli)) ∘ mkCoordBucket df))
        = List.insertionSort keyLex ((df.map coordKey).dedup) := by
      have h3 : ((fun (b : CoordBucket) => (b.lat_milli, b.lon_milli)) ∘ mkCoordBucket df)
          = id := by
        funext k
        show ((mkCoordBucket df k).lat_milli, (mkCoordBucket df k).lon_milli) = k
        exact Prod.mk.eta
      rw [h3, List.map_id]
    rw [h2] at h1
    exact h1.trans (List.perm_insertionSort keyLex _)
  · intro b hb
    have hb2 : b ∈ (List.insertionSort keyLex ((df.map coordKey).dedup)).map
        (mkCoordBucket df) := hL.subset hb
    obtain ⟨k, hk, heq⟩ := List.mem_map.mp hb2
    subst heq
    have hkd : k ∈ (df.map coordKey).dedup :=
      (List.perm_insertionSort keyLex _).subset hk
    obtain ⟨e0, he0, hke⟩ := List.mem_map.mp (List.mem_dedup.mp hkd)
    have hg : e0 ∈ coordGroup df k := by
      rw [coordGroup, List.mem_filter]
      exact ⟨he0, by rw [hke]; exact decide_eq_true rfl⟩
    have hgx : (coordGroup df k).map (fun e => e.event_type) ≠ [] :=
      List.ne_nil_of_mem (List.mem_map_of_mem _ hg)
    have hgy : (coordGroup df k).map (fun e => e.location_type) ≠ [] :=
      List.ne_nil_of_mem (List.mem_map_of_mem _ hg)
    have hme := modeLambda_spec ((coordGroup df k).map (fun e => e.event_type)) hgx
    have hml := modeLambda_spec ((coordGroup df k).map (fun e => e.location_type)) hgy
    have hkey : ((mkCoordBucket df k).lat_milli, (mkCoordBucket df k).lon_milli) = k :=
      Prod.mk.eta
    refine ⟨?_, ?_, ?_, ?_⟩
    · show ((coordGroup df k).map (fun e => e.total_fatalities)).sum = _
      rw [hkey]
      rfl
    · show (coordGroup df k).countP (fun e => e.incident_date.isSome) = _
      rw [hkey]
      exact List.countP_eq_length_filter _ _
    · rw [hkey]
      exact ⟨fun h => hme.1 h, fun h => hme.2 h⟩
    · rw [hkey]
      exact ⟨fun h => hml.1 h, fun h => hml.2 h⟩
  · exact List.sorted_insertionSort bucketDesc _
  · exact List.length_take_le _ _

/-- The bucket the code produces for the tied pair (label `A`, the sorted
tie-break). -/
def c6_bucket : CoordBucket := ⟨40500, -74000, 2, 2, some ("A"), some ("L")⟩

/-- Witness for claim C6 at the two-row tie input. -/
theorem c6_witness :
    c6_bucket ∈ deadliest_locations [c6_row_b, c6_row_a] ∧
    c6_bucket.total_fatalities =
      (([c6_row_b, c6_row_a].filter
        (fun e => decide (coordKey e = (c6_bucket.lat_milli, c6_bucket.lon_milli)))).map
          (fun e => e.total_fatalities)).sum := by
  have h := c6_deadliest_spec [c6_row_b, c6_row_a]
  have hmem : c6_bucket ∈ deadliest_locations [c6_row_b, c6_row_a] := by decide
  exact ⟨hmem, (h.2.1 c6_bucket hmem).1⟩
